import Mathlib

/-!
Shallow embedding of `homeassistant/components/airnow/sensor.py`.

The module is a declarative adapter layer: a static table of sensor
descriptors (`SENSOR_TYPES`) plus a thin entity class (`AirNowSensor`)
that reads from a data-update coordinator's last-fetched snapshot.

Modelling conventions:
- A coordinator snapshot (a Python `dict`) is an association list
  `List (String × Value)`; `Value.none` embeds Python `None`.
  `dict.get` (total, defaulting to `None`) is `Snapshot.get`;
  `dict[...]` subscripting (which raises `KeyError` on an absent key)
  is `Snapshot.getitem`, returning `Except PyErr Value`.
- The coordinator's `latitude` / `longitude` are only ever interpolated
  into an f-string, so they are carried as their decimal string
  renderings (Python renders the float `40.0` as `"40.0"`).
- The `identifiers` set of a `DeviceInfo` is a singleton in the source
  (`{(DOMAIN, unique_id)}`); it is carried as a one-element list.
- Code that can raise is `Except PyErr`-valued; code that cannot raise
  is total.
-/

/-- Python values that occur in an AirNow payload or attribute mapping:
`None`, integers and strings. -/
inductive Value where
  | none
  | int (n : Int)
  | str (s : String)
deriving DecidableEq, Repr

/-- A Python exception relevant to this module: subscripting a `dict`
with an absent key raises `KeyError`. -/
inductive PyErr where
  | keyError
deriving DecidableEq, Repr

/-- A coordinator data snapshot: a Python `dict` from field key to raw
value, embedded as an association list. -/
def Snapshot : Type := List (String × Value)

instance : DecidableEq Snapshot := by
  unfold Snapshot
  infer_instance

/-- Python `data.get(key)`: the stored value if the key is present,
`None` otherwise. Total, never raises. -/
def Snapshot.get (data : Snapshot) (key : String) : Value :=
  match List.lookup key data with
  | some v => v
  | Option.none => Value.none

/-- Python `data[key]`: the stored value if the key is present, raises
`KeyError` otherwise. -/
def Snapshot.getitem (data : Snapshot) (key : String) : Except PyErr Value :=
  match List.lookup key data with
  | some v => Except.ok v
  | Option.none => Except.error PyErr.keyError

/-- `SensorStateClass` from `homeassistant.components.sensor`; only
`MEASUREMENT` is used by this module. -/
inductive SensorStateClass where
  | measurement
deriving DecidableEq, Repr

/-- `DeviceEntryType` from `homeassistant.helpers.device_registry`; only
`SERVICE` is used by this module. -/
inductive DeviceEntryType where
  | service
deriving DecidableEq, Repr

/-- Modelled from the spec: `ATTR_API_AQI` from `airnow/const.py` (not
under `src/`); the spec's scenario snapshot names the AQI field `AQI`. -/
def ATTR_API_AQI : String := "AQI"

/-- Modelled from the spec: `ATTR_API_AQI_DESCRIPTION` from
`airnow/const.py` (not under `src/`); the spec's scenario snapshot names
the field `AQI_DESCRIPTION`. -/
def ATTR_API_AQI_DESCRIPTION : String := "AQI_DESCRIPTION"

/-- Modelled from the spec: `ATTR_API_AQI_LEVEL` from `airnow/const.py`
(not under `src/`); the spec's scenario snapshot names the field
`AQI_LEVEL`. -/
def ATTR_API_AQI_LEVEL : String := "AQI_LEVEL"

/-- Modelled from the spec: `ATTR_API_PM25` from `airnow/const.py` (not
under `src/`); the spec calls this descriptor the PM2.5 descriptor. -/
def ATTR_API_PM25 : String := "PM2.5"

/-- Modelled from the spec: `ATTR_API_O3` from `airnow/const.py` (not
under `src/`); the spec calls this descriptor the ozone descriptor. -/
def ATTR_API_O3 : String := "O3"

/-- Modelled from the spec: `DEFAULT_NAME` from `airnow/const.py` (not
under `src/`), the fixed manufacturer/name string of the device-identity
record. -/
def DEFAULT_NAME : String := "AirNow"

/-- Modelled from the spec: `DOMAIN` from `airnow/const.py` (not under
`src/`), the integration domain used in the device identifiers. -/
def DOMAIN : String := "airnow"

/-- `CONCENTRATION_MICROGRAMS_PER_CUBIC_METER` from
`homeassistant.const` (external host constant, presentation metadata
passed through unchanged). -/
def CONCENTRATION_MICROGRAMS_PER_CUBIC_METER : String := "µg/m³"

/-- `CONCENTRATION_PARTS_PER_MILLION` from `homeassistant.const`
(external host constant, presentation metadata passed through
unchanged). -/
def CONCENTRATION_PARTS_PER_MILLION : String := "ppm"

/-- `ATTRIBUTION = "Data provided by AirNow"`. -/
def ATTRIBUTION : String := "Data provided by AirNow"

/-- `PARALLEL_UPDATES = 1`: the module-level pass-through parallelism
cap the host scheduler reads. -/
def PARALLEL_UPDATES : Nat := 1

/-- `ATTR_DESCR = "description"`. -/
def ATTR_DESCR : String := "description"

/-- `ATTR_LEVEL = "level"`. -/
def ATTR_LEVEL : String := "level"

/-- `AirNowEntityDescription` (the `SensorEntityDescription` fields used
by this module plus the `AirNowEntityDescriptionMixin` fields).
`extra_state_attributes_fn` is `Callable | None` in the source, hence an
`Option`; the callable subscripts the payload and so may raise. -/
structure AirNowEntityDescription where
  key : String
  translation_key : String
  icon : String
  native_unit_of_measurement : String
  state_class : SensorStateClass
  value_fn : Snapshot → Value
  extra_state_attributes_fn : Option (Snapshot → Except PyErr (List (String × Value)))

/-- `SENSOR_TYPES`: the static descriptor table (a tuple in the source,
embedded as a list in the same order). -/
def SENSOR_TYPES : List AirNowEntityDescription :=
  [ { key := ATTR_API_AQI
      translation_key := "aqi"
      icon := "mdi:blur"
      native_unit_of_measurement := "aqi"
      state_class := SensorStateClass.measurement
      value_fn := fun data => data.get ATTR_API_AQI
      extra_state_attributes_fn := some fun data => do
        let descr ← data.getitem ATTR_API_AQI_DESCRIPTION
        let level ← data.getitem ATTR_API_AQI_LEVEL
        Except.ok [(ATTR_DESCR, descr), (ATTR_LEVEL, level)] },
    { key := ATTR_API_PM25
      translation_key := "pm25"
      icon := "mdi:blur"
      native_unit_of_measurement := CONCENTRATION_MICROGRAMS_PER_CUBIC_METER
      state_class := SensorStateClass.measurement
      value_fn := fun data => data.get ATTR_API_PM25
      extra_state_attributes_fn := Option.none },
    { key := ATTR_API_O3
      translation_key := "o3"
      icon := "mdi:blur"
      native_unit_of_measurement := CONCENTRATION_PARTS_PER_MILLION
      state_class := SensorStateClass.measurement
      value_fn := fun data => data.get ATTR_API_O3
      extra_state_attributes_fn := Option.none } ]

/-- The slice of `AirNowDataUpdateCoordinator` this module reads:
geographic coordinates (as their decimal string renderings, see the
header) and the last-fetched data snapshot. -/
structure AirNowDataUpdateCoordinator where
  latitude : String
  longitude : String
  data : Snapshot

/-- `DeviceInfo` as constructed by this module. -/
structure DeviceInfo where
  entry_type : DeviceEntryType
  identifiers : List (String × String)
  manufacturer : String
  name : String
deriving DecidableEq, Repr

/-- `AirNowSensor`: the adapter's state after `__init__` — the shared
coordinator reference, its descriptor, and the identity attributes
computed at construction. -/
structure AirNowSensor where
  coordinator : AirNowDataUpdateCoordinator
  entity_description : AirNowEntityDescription
  attr_unique_id : String
  attr_device_info : DeviceInfo

/-- Python `str.lower()` as used on the ASCII descriptor keys: lowercase
each character. -/
def pyLower (s : String) : String := String.mk (s.data.map Char.toLower)

/-- `AirNowSensor.__init__(coordinator, description)`: stores both,
computes the unique id
`f"\x7bcoordinator.latitude\x7d-\x7bcoordinator.longitude\x7d-\x7bdescription.key.lower()\x7d"`
and the `DeviceInfo` record. -/
def AirNowSensor.init (coordinator : AirNowDataUpdateCoordinator)
    (description : AirNowEntityDescription) : AirNowSensor :=
  let uid :=
    coordinator.latitude ++ "-" ++ coordinator.longitude ++ "-" ++ pyLower description.key
  { coordinator := coordinator
    entity_description := description
    attr_unique_id := uid
    attr_device_info :=
      { entry_type := DeviceEntryType.service
        identifiers := [(DOMAIN, uid)]
        manufacturer := DEFAULT_NAME
        name := DEFAULT_NAME } }

/-- `AirNowSensor.native_value`: `value_fn(coordinator.data)`. The
extraction functions in the table are total, so this read cannot
raise. -/
def AirNowSensor.native_value (s : AirNowSensor) : Value :=
  s.entity_description.value_fn s.coordinator.data

/-- `AirNowSensor.extra_state_attributes`: if the descriptor carries an
attributes callable (Python truthiness: `None` is falsy, a callable is
truthy), call it on `coordinator.data` (it may raise); else return
`None`. -/
def AirNowSensor.extra_state_attributes (s : AirNowSensor) :
    Except PyErr (Option (List (String × Value))) :=
  match s.entity_description.extra_state_attributes_fn with
  | some f => (f s.coordinator.data).map some
  | Option.none => Except.ok Option.none

/-- `async_add_entities(entities, update_before_add)`: the host's
registration callback; the entities it is handed are the entities the
host registers. -/
def async_add_entities (entities : List AirNowSensor) (_update_before_add : Bool) :
    List AirNowSensor :=
  entities

/-- `async_setup_entry`: builds one `AirNowSensor` per descriptor in
`SENSOR_TYPES` for the entry's coordinator and registers the list with
the host. (The source fetches the coordinator from
`hass.data[DOMAIN][config_entry.entry_id]`; that lookup is collapsed
into the `coordinator` argument.) -/
def async_setup_entry (coordinator : AirNowDataUpdateCoordinator) :
    List AirNowSensor :=
  let entities :=
    SENSOR_TYPES.map (fun description => AirNowSensor.init coordinator description)
  async_add_entities entities false

/-! ## Theorems -/

/-- Reading a key that the snapshot does not contain gives `None`. -/
theorem Snapshot.get_of_lookup_none (data : Snapshot) (k : String)
    (h : List.lookup k data = Option.none) : data.get k = Value.none := by
  simp only [Snapshot.get, h]

/-- Reading a key that the snapshot maps to `v` gives `v`. -/
theorem Snapshot.get_of_lookup_some (data : Snapshot) (k : String) (v : Value)
    (h : List.lookup k data = some v) : data.get k = v := by
  simp only [Snapshot.get, h]

/-- C3: for every descriptor in `SENSOR_TYPES`, applying its `value_fn`
to any snapshot that does not contain that descriptor's key returns the
unknown sentinel `None` (and, the extraction being total, no exception
is raised). -/
theorem value_fn_absent_key_is_none
    (d : AirNowEntityDescription) (hd : d ∈ SENSOR_TYPES)
    (data : Snapshot) (h : List.lookup d.key data = Option.none) :
    d.value_fn data = Value.none := by
  simp only [SENSOR_TYPES, List.mem_cons, List.not_mem_nil, or_false] at hd
  rcases hd with rfl | rfl | rfl <;>
    exact Snapshot.get_of_lookup_none data _ h

/-- Witness for C3: the AQI descriptor on the empty snapshot. -/
theorem value_fn_absent_key_is_none_witness :
    (SENSOR_TYPES.get ⟨0, by decide⟩ ∈ SENSOR_TYPES ∧
      List.lookup (SENSOR_TYPES.get ⟨0, by decide⟩).key ([] : Snapshot) = Option.none) ∧
    (SENSOR_TYPES.get ⟨0, by decide⟩).value_fn ([] : Snapshot) = Value.none :=
  ⟨⟨List.get_mem _ _ _, rfl⟩,
    value_fn_absent_key_is_none _ (List.get_mem _ _ _) [] rfl⟩

/-- C4: the unique identity computed at construction is
`latitude ++ "-" ++ longitude ++ "-" ++ pyLower key`; at
latitude 40.0, longitude -75.0 and the AQI descriptor it equals
`"40.0--75.0-aqi"`. -/
theorem unique_id_formula :
    (∀ (c : AirNowDataUpdateCoordinator) (d : AirNowEntityDescription),
      (AirNowSensor.init c d).attr_unique_id =
        c.latitude ++ "-" ++ c.longitude ++ "-" ++ pyLower d.key) ∧
    (AirNowSensor.init { latitude := "40.0", longitude := "-75.0", data := [] }
        (SENSOR_TYPES.get ⟨0, by decide⟩)).attr_unique_id = "40.0--75.0-aqi" :=
  ⟨fun _ _ => rfl, by decide⟩

/-- C5: on the snapshot `AQI ↦ 42, AQI_DESCRIPTION ↦ "Moderate",
AQI_LEVEL ↦ 2`, the AQI adapter's value is 42 and its attributes are
exactly `description ↦ "Moderate", level ↦ 2`, while the PM2.5 adapter's
value is the unknown sentinel because its key is absent. -/
theorem scenario_moderate_snapshot :
    (AirNowSensor.init
        { latitude := "40.0", longitude := "-75.0",
          data := [(ATTR_API_AQI, Value.int 42),
                   (ATTR_API_AQI_DESCRIPTION, Value.str "Moderate"),
                   (ATTR_API_AQI_LEVEL, Value.int 2)] }
        (SENSOR_TYPES.get ⟨0, by decide⟩)).native_value = Value.int 42 ∧
    (AirNowSensor.init
        { latitude := "40.0", longitude := "-75.0",
          data := [(ATTR_API_AQI, Value.int 42),
                   (ATTR_API_AQI_DESCRIPTION, Value.str "Moderate"),
                   (ATTR_API_AQI_LEVEL, Value.int 2)] }
        (SENSOR_TYPES.get ⟨0, by decide⟩)).extra_state_attributes =
      Except.ok (some [(ATTR_DESCR, Value.str "Moderate"), (ATTR_LEVEL, Value.int 2)]) ∧
    (AirNowSensor.init
        { latitude := "40.0", longitude := "-75.0",
          data := [(ATTR_API_AQI, Value.int 42),
                   (ATTR_API_AQI_DESCRIPTION, Value.str "Moderate"),
                   (ATTR_API_AQI_LEVEL, Value.int 2)] }
        (SENSOR_TYPES.get ⟨1, by decide⟩)).native_value = Value.none :=
  ⟨rfl, rfl, rfl⟩

/-- C6: the PM2.5 and ozone descriptors carry no
`extra_state_attributes_fn`, and for every coordinator state the
adapter's `extra_state_attributes` read returns `None` (and raises
nothing). -/
theorem pm25_o3_attributes_none :
    (SENSOR_TYPES.get ⟨1, by decide⟩).extra_state_attributes_fn = Option.none ∧
    (SENSOR_TYPES.get ⟨2, by decide⟩).extra_state_attributes_fn = Option.none ∧
    ∀ (c : AirNowDataUpdateCoordinator),
      (AirNowSensor.init c (SENSOR_TYPES.get ⟨1, by decide⟩)).extra_state_attributes =
          Except.ok Option.none ∧
      (AirNowSensor.init c (SENSOR_TYPES.get ⟨2, by decide⟩)).extra_state_attributes =
          Except.ok Option.none :=
  ⟨rfl, rfl, fun _ => ⟨rfl, rfl⟩⟩

/-- C7: for every coordinator, `async_setup_entry` registers exactly one
adapter per descriptor of `SENSOR_TYPES`, in table order, each bound to
that coordinator and its descriptor. -/
theorem async_setup_entry_one_adapter_per_descriptor
    (c : AirNowDataUpdateCoordinator) :
    (async_setup_entry c).length = SENSOR_TYPES.length ∧
    ∀ (i : Nat) (h1 : i < (async_setup_entry c).length)
      (h2 : i < SENSOR_TYPES.length),
      (async_setup_entry c).get ⟨i, h1⟩ =
        AirNowSensor.init c (SENSOR_TYPES.get ⟨i, h2⟩) := by
  refine ⟨by simp [async_setup_entry, async_add_entities], ?_⟩
  intro i h1 h2
  simp [async_setup_entry, async_add_entities]

/-- C8: for every descriptor in `SENSOR_TYPES`, `value_fn` gives the
same result on a snapshot mapping the key to `None` as on one missing
the key entirely. -/
theorem value_fn_null_eq_absent
    (d : AirNowEntityDescription) (hd : d ∈ SENSOR_TYPES)
    (s1 s2 : Snapshot)
    (h1 : List.lookup d.key s1 = some Value.none)
    (h2 : List.lookup d.key s2 = Option.none) :
    d.value_fn s1 = d.value_fn s2 := by
  simp only [SENSOR_TYPES, List.mem_cons, List.not_mem_nil, or_false] at hd
  rcases hd with rfl | rfl | rfl <;>
    exact (Snapshot.get_of_lookup_some s1 _ _ h1).trans
      (Snapshot.get_of_lookup_none s2 _ h2).symm

/-- Witness for C8: the AQI descriptor, with the key mapped to `None`
versus the empty snapshot. -/
theorem value_fn_null_eq_absent_witness :
    (SENSOR_TYPES.get ⟨0, by decide⟩ ∈ SENSOR_TYPES ∧
      List.lookup (SENSOR_TYPES.get ⟨0, by decide⟩).key
          ([("AQI", Value.none)] : Snapshot) = some Value.none ∧
      List.lookup (SENSOR_TYPES.get ⟨0, by decide⟩).key ([] : Snapshot) = Option.none) ∧
    (SENSOR_TYPES.get ⟨0, by decide⟩).value_fn ([("AQI", Value.none)] : Snapshot) =
      (SENSOR_TYPES.get ⟨0, by decide⟩).value_fn ([] : Snapshot) :=
  ⟨⟨List.get_mem _ _ _, rfl, rfl⟩,
    value_fn_null_eq_absent _ (List.get_mem _ _ _) _ _ rfl rfl⟩

/-- C9: the descriptor table `SENSOR_TYPES` has pairwise-distinct keys
(and exactly the three fixed entries); it is a constant of the module,
and every operation of the pure embedding leaves it untouched. -/
theorem sensor_types_keys_distinct :
    (SENSOR_TYPES.map (fun d => d.key)).Nodup ∧ SENSOR_TYPES.length = 3 := by
  refine ⟨?_, rfl⟩
  decide

/-- C10: the module-level pass-through parallelism cap
`PARALLEL_UPDATES` equals 1. -/
theorem parallel_updates_eq_one : PARALLEL_UPDATES = 1 := rfl

/-- C1 counterexample: the AQI and PM2.5 adapters built from the same
coordinator instance compute different device-identity records — the
identifiers embed the per-descriptor unique id. -/
theorem device_identity_differs_same_coordinator :
    (AirNowSensor.init { latitude := "40.0", longitude := "-75.0", data := [] }
        (SENSOR_TYPES.get ⟨0, by decide⟩)).attr_device_info ≠
      (AirNowSensor.init { latitude := "40.0", longitude := "-75.0", data := [] }
        (SENSOR_TYPES.get ⟨1, by decide⟩)).attr_device_info := by
  decide

/-- C1 amended: two adapters built from the same coordinator agree on
the service entry type and the fixed manufacturer/name string of their
device-identity records, but the records' identifiers embed the
adapter's unique id (which includes the descriptor's lowercased key), so
the records are identical exactly when the unique ids coincide — the
host gets one logical device per sensor, not one per coordinator. -/
theorem device_identity_same_coordinator
    (c : AirNowDataUpdateCoordinator) (d1 d2 : AirNowEntityDescription) :
    (AirNowSensor.init c d1).attr_device_info.entry_type =
        (AirNowSensor.init c d2).attr_device_info.entry_type ∧
    (AirNowSensor.init c d1).attr_device_info.manufacturer =
        (AirNowSensor.init c d2).attr_device_info.manufacturer ∧
    (AirNowSensor.init c d1).attr_device_info.name =
        (AirNowSensor.init c d2).attr_device_info.name ∧
    ((AirNowSensor.init c d1).attr_device_info =
        (AirNowSensor.init c d2).attr_device_info ↔
      (AirNowSensor.init c d1).attr_unique_id =
        (AirNowSensor.init c d2).attr_unique_id) := by
  refine ⟨rfl, rfl, rfl, ?_, ?_⟩
  · intro h
    have h2 := congrArg DeviceInfo.identifiers h
    simpa [AirNowSensor.init] using h2
  · intro h
    simp only [AirNowSensor.init] at h ⊢
    rw [h]

/-- C2 counterexample: the AQI adapter's attributes read on a
coordinator whose payload lacks the `AQI_DESCRIPTION` and `AQI_LEVEL`
fields raises `KeyError` instead of degrading to an unknown/absent
value. -/
theorem aqi_attributes_raise_on_empty_payload :
    (AirNowSensor.init { latitude := "40.0", longitude := "-75.0", data := [] }
        (SENSOR_TYPES.get ⟨0, by decide⟩)).extra_state_attributes =
      Except.error PyErr.keyError := rfl

/-- C2 amended: for every descriptor in the table, the adapter's value
read is the total `value_fn` (it cannot raise), and the attributes read
raises exactly when the descriptor is the AQI one and the payload lacks
`AQI_DESCRIPTION` or `AQI_LEVEL`; every other extraction degrades to an
unknown/absent value. -/
theorem reads_degrade_except_aqi_attributes
    (d : AirNowEntityDescription) (hd : d ∈ SENSOR_TYPES)
    (c : AirNowDataUpdateCoordinator) :
    (AirNowSensor.init c d).native_value = d.value_fn c.data ∧
    ((∃ e, (AirNowSensor.init c d).extra_state_attributes = Except.error e) ↔
      d.key = ATTR_API_AQI ∧
        (List.lookup ATTR_API_AQI_DESCRIPTION c.data = Option.none ∨
         List.lookup ATTR_API_AQI_LEVEL c.data = Option.none)) := by
  refine ⟨rfl, ?_⟩
  simp only [SENSOR_TYPES, List.mem_cons, List.not_mem_nil, or_false] at hd
  rcases hd with rfl | rfl | rfl
  · cases hdescr : List.lookup ATTR_API_AQI_DESCRIPTION c.data with
    | none =>
        simp [AirNowSensor.extra_state_attributes, AirNowSensor.init,
          Snapshot.getitem, hdescr, Except.map, Except.bind, bind]
        exact ⟨PyErr.keyError, trivial⟩
    | some v1 =>
        cases hlevel : List.lookup ATTR_API_AQI_LEVEL c.data with
        | none =>
            simp [AirNowSensor.extra_state_attributes, AirNowSensor.init,
              Snapshot.getitem, hdescr, hlevel, Except.map, Except.bind, bind]
            exact ⟨PyErr.keyError, trivial⟩
        | some v2 =>
            simp [AirNowSensor.extra_state_attributes, AirNowSensor.init,
              Snapshot.getitem, hdescr, hlevel, Except.map, Except.bind, bind]
  · simp [AirNowSensor.extra_state_attributes, AirNowSensor.init,
      ATTR_API_PM25, ATTR_API_AQI]
  · simp [AirNowSensor.extra_state_attributes, AirNowSensor.init,
      ATTR_API_O3, ATTR_API_AQI]

/-- Witness for the amended C2: the AQI descriptor on a coordinator with
an empty payload — the attributes read raises because both fields are
absent. -/
theorem reads_degrade_except_aqi_attributes_witness :
    (SENSOR_TYPES.get ⟨0, by decide⟩ ∈ SENSOR_TYPES) ∧
    ((AirNowSensor.init { latitude := "40.0", longitude := "-75.0", data := [] }
          (SENSOR_TYPES.get ⟨0, by decide⟩)).native_value =
        (SENSOR_TYPES.get ⟨0, by decide⟩).value_fn ([] : Snapshot) ∧
      ((∃ e, (AirNowSensor.init { latitude := "40.0", longitude := "-75.0", data := [] }
            (SENSOR_TYPES.get ⟨0, by decide⟩)).extra_state_attributes = Except.error e) ↔
        (SENSOR_TYPES.get ⟨0, by decide⟩).key = ATTR_API_AQI ∧
          (List.lookup ATTR_API_AQI_DESCRIPTION ([] : Snapshot) = Option.none ∨
           List.lookup ATTR_API_AQI_LEVEL ([] : Snapshot) = Option.none))) :=
  ⟨List.get_mem _ _ _,
    reads_degrade_except_aqi_attributes _ (List.get_mem _ _ _) _⟩
